import Mathlib

/-!
Shallow embedding of `src/main.py` of the transmission_bot repository
(a Telegram bot searching torrents via Jackett and enqueueing them into
Transmission), together with verification of the specification claims.

Modelling conventions:
* Python `dict` values returned by the Jackett API become the `RawResult`
  structure with `Option` fields (a `none` field models an absent key).
* The formatted dictionaries built by `search_jackett` become `Torrent`.
* The module-level `search_results_cache : Dict[int, List[Dict]]` becomes a
  total function `Int → Option (List Torrent)`.
* Exceptions of collaborators (requests, transmission_rpc) are inputs of the
  handler functions (`ProviderOutcome`, `SubmitOutcome`); a handler that
  catches an exception is a total function on those inputs.
* Outbound Telegram messages become the `Msg` inductive, one constructor per
  distinct reply of the source (exact surface strings are presentation and are
  not modelled; truncation `str(e)[:200]` is modelled with `String.take`).
* Python `sorted(results, key=..., reverse=True)` is a stable sort placing
  larger keys first and keeping ties in the original order; `sortDesc` below
  implements exactly that semantics.
* Python list indexing `xs[i]` with `i : int` (negative indices count from the
  end, out-of-range raises `IndexError`) is `pyIndex`.
-/

/-- A formatted search result as built by `search_jackett` (main.py 130-138). -/
structure Torrent where
  id : String
  title : String
  size : Int
  seeds : Int
  peers : Int
  magnet : String
  tracker : String
deriving DecidableEq, Repr

/-- A raw Jackett result object; `none` models an absent JSON key
(main.py 124-138 accesses it only through `.get`/`in`). -/
structure RawResult where
  guid : Option String := none
  title : Option String := none
  size : Option Int := none
  seeders : Option Int := none
  peers : Option Int := none
  magnetUri : Option String := none
  link : Option String := none
  tracker : Option String := none
deriving DecidableEq, Repr

/-- A Transmission torrent as consumed by the `status` handler
(main.py 334-361); `percent_done` is a float and is not modelled. -/
structure Job where
  name : String
  state : String
  totalSize : Int
  rateDownload : Int
  rateUpload : Int
deriving DecidableEq, Repr

/-- The distinct outbound replies of main.py, one constructor per reply site. -/
inductive Msg where
  | unauthorized
  | greeting
  | searching (q : String)
  | noResults
  | searchError (detail : String)
  | selectPrompt
  | searchCancelled
  | invalidSelection
  | noMagnetLink
  | addingTorrent (title : String)
  | torrentAdded (title : String) (size : Int) (tracker : String)
  | transmissionFailed (detail : String)
  | selectionError (detail : String)
  | noTorrents
  | statusSummary (shown : List Job) (more : Option Nat)
  | statusFailed (detail : String)
  | operationCancelled
deriving DecidableEq, Repr

/-- Conversation states: `SEARCH` and `SELECT_TORRENT` are the two states of
the `ConversationHandler` (main.py 40); `DONE` models `ConversationHandler.END`
(no active conversation). -/
inductive ConvState where
  | SEARCH
  | SELECT_TORRENT
  | DONE
deriving DecidableEq, Repr

/-- The module-level `search_results_cache` dictionary (main.py 60). -/
def CacheT : Type := Int → Option (List Torrent)

/-- Assignment `search_results_cache[uid] = v` (main.py 203). -/
def cacheSet (c : CacheT) (uid : Int) (v : List Torrent) : CacheT :=
  fun u => if u = uid then some v else c u

/-- Removal `search_results_cache.pop(uid, None)` (main.py 298, 381). -/
def cachePop (c : CacheT) (uid : Int) : CacheT :=
  fun u => if u = uid then none else c u

/-- The empty cache (process start). -/
def cacheEmpty : CacheT := fun _ => none

/-- Guard `is_user_allowed` used by `check_user` (main.py 63-64): membership
in the static `ALLOWED_USERS` list. -/
def check_user (allowed : List Int) (uid : Int) : Bool :=
  allowed.contains uid

/-! ## Search Provider Adapter (`search_jackett`, main.py 97-144) -/

/-- An HTTP response from Jackett: status code and the parsed `Results` array. -/
structure HttpResponse where
  status_code : Nat
  results : List RawResult
deriving DecidableEq, Repr

/-- Outcome of the `requests.get` call inside `search_jackett`: either an
exception anywhere in the `try` block, or a response. -/
inductive ProviderOutcome where
  | exn
  | resp (r : HttpResponse)
deriving DecidableEq, Repr

/-- Sort key: the `Seeders` field with default 0 (main.py 121). -/
def seedersOf (r : RawResult) : Int :=
  r.seeders.getD 0

/-- Stable insertion placing `a` before the first element whose key is
`≤ k a` (so `a`, which precedes the rest in the original list, stays before
elements with equal keys): the insertion step of a stable descending sort. -/
def insertDesc (k : α → Int) (a : α) : List α → List α
  | [] => [a]
  | b :: bs => if k b ≤ k a then a :: b :: bs else b :: insertDesc k a bs

/-- Python `sorted(xs, key=k, reverse=True)`: stable, larger keys first,
ties keep the original relative order (main.py 121). -/
def sortDesc (k : α → Int) : List α → List α
  | [] => []
  | x :: xs => insertDesc k x (sortDesc k xs)

/-- Locator resolution (main.py 126-128): take `MagnetUri` defaulting to the
empty string; if that is falsy and the `Link` key is present, take `Link`. -/
def resolveMagnet (r : RawResult) : String :=
  let magnet := r.magnetUri.getD ""
  if magnet = "" && r.link.isSome then r.link.getD "" else magnet

/-- Building one formatted dictionary (main.py 130-138). -/
def formatResult (r : RawResult) : Torrent :=
  { id := r.guid.getD ""
    title := r.title.getD "Unknown"
    size := r.size.getD 0
    seeds := r.seeders.getD 0
    peers := r.peers.getD 0
    magnet := resolveMagnet r
    tracker := r.tracker.getD "Unknown" }

/-- Function `search_jackett` (main.py 97-144): on any exception return `[]`; on a
non-200 status return `[]`; otherwise sort the `Results` array by seeders
descending (stable), keep the first 10, and format each one. -/
def search_jackett (o : ProviderOutcome) : List Torrent :=
  match o with
  | .exn => []
  | .resp r =>
    if r.status_code ≠ 200 then []
    else ((sortDesc seedersOf r.results).take 10).map formatResult

/-- The raw list the adapter works from: the `Results` array when the call
succeeded with status 200, `[]` otherwise. -/
def rawResultsOf (o : ProviderOutcome) : List RawResult :=
  match o with
  | .exn => []
  | .resp r => if r.status_code ≠ 200 then [] else r.results

/-! ## Handlers -/

/-- The observable outcome of one handler invocation: the conversation state
it returns, the cache after it ran, the replies it sent, and the locator it
passed to `transmission_client.add_torrent` (if it reached that call). -/
structure HandlerOut where
  ret : ConvState
  cache : CacheT
  msgs : List Msg
  daemonAdd : Option String

/-- Handler `start` (main.py 159-175). -/
def start (allowed : List Int) (uid : Int) (cache : CacheT) : HandlerOut :=
  if check_user allowed uid then
    ⟨.SEARCH, cache, [.greeting], none⟩
  else
    ⟨.DONE, cache, [.unauthorized], none⟩

/-- Handler `search_torrent` (main.py 177-238).  The provider interaction is the
`ProviderOutcome` input consumed by `search_jackett`. -/
def search_torrent (allowed : List Int) (uid : Int) (q : String)
    (o : ProviderOutcome) (cache : CacheT) : HandlerOut :=
  if check_user allowed uid then
    let results := search_jackett o
    if results.isEmpty then
      ⟨.SEARCH, cache, [.searching q, .noResults], none⟩
    else
      ⟨.SELECT_TORRENT, cacheSet cache uid results, [.searching q, .selectPrompt], none⟩
  else
    ⟨.DONE, cache, [.unauthorized], none⟩

/-- The `query.data` string of a callback as `select_torrent` consumes it
(main.py 246, 253): the literal `"cancel"`, a string `int()` parses to `i`,
or any other string (`int()` raises `ValueError` with text `e`). -/
inductive CallbackData where
  | cancel
  | intData (i : Int)
  | malformed (e : String)
deriving DecidableEq, Repr

/-- Outcome of `init_transmission` + `add_torrent` (main.py 276-280): success
or a `transmission_rpc.error.TransmissionError` with text `e`. -/
inductive SubmitOutcome where
  | ok
  | transmissionError (e : String)
deriving DecidableEq, Repr

/-- Python list indexing `xs[i]`: negative `i` counts from the end; `none`
models the `IndexError` raised when `i` is out of range. -/
def pyIndex (l : List Torrent) (i : Int) : Option Torrent :=
  if 0 ≤ i then l.get? i.toNat
  else if 0 ≤ i + l.length then l.get? (i + l.length).toNat
  else none

/-- Handler `select_torrent` (main.py 240-309).  Note the source behaviour embedded
faithfully: the `"cancel"` branch does not touch the cache; the bounds check
is only `torrent_index >= len(user_results)` (a negative index falls through
to Python indexing); the `pop` happens only after a successful `add_torrent`;
a `ValueError` from `int()` or an `IndexError` lands in the generic `except`
showing a truncated detail. -/
def select_torrent (uid : Int) (data : CallbackData) (daemon : SubmitOutcome)
    (cache : CacheT) : HandlerOut :=
  match data with
  | .cancel => ⟨.SEARCH, cache, [.searchCancelled], none⟩
  | .malformed e => ⟨.SEARCH, cache, [.selectionError (e.take 200)], none⟩
  | .intData i =>
    let user_results := (cache uid).getD []
    if user_results.isEmpty || (user_results.length : Int) ≤ i then
      ⟨.SEARCH, cache, [.invalidSelection], none⟩
    else
      match pyIndex user_results i with
      | none => ⟨.SEARCH, cache, [.selectionError "list index out of range"], none⟩
      | some selected =>
        if selected.magnet = "" then
          ⟨.SEARCH, cache, [.noMagnetLink], none⟩
        else
          match daemon with
          | .ok =>
            ⟨.SEARCH, cachePop cache uid,
              [.addingTorrent selected.title,
               .torrentAdded selected.title selected.size selected.tracker],
              some selected.magnet⟩
          | .transmissionError e =>
            ⟨.SEARCH, cache,
              [.addingTorrent selected.title, .transmissionFailed (e.take 200)],
              some selected.magnet⟩

/-- Handler `status` (main.py 311-372).  `daemon = none` models an exception from
`init_transmission` / `get_torrents`; otherwise the current torrent list. -/
def status (allowed : List Int) (uid : Int) (daemon : Option (List Job))
    (cache : CacheT) : HandlerOut :=
  if check_user allowed uid then
    match daemon with
    | none => ⟨.SEARCH, cache, [.statusFailed ""], none⟩
    | some jobs =>
      if jobs.isEmpty then
        ⟨.SEARCH, cache, [.noTorrents], none⟩
      else
        ⟨.SEARCH, cache,
          [.statusSummary (jobs.take 10)
            (if 10 < jobs.length then some (jobs.length - 10) else none)],
          none⟩
  else
    ⟨.DONE, cache, [.unauthorized], none⟩

/-- Handler `cancel` (main.py 374-384): pops the cache entry, replies, ends the
conversation.  It performs no `check_user` call. -/
def cancel (uid : Int) (cache : CacheT) : HandlerOut :=
  ⟨.DONE, cachePop cache uid, [.operationCancelled], none⟩

/-! ## Dispatch and the global step (the `ConversationHandler` of `main`,
main.py 429-440) -/

/-- An inbound Telegram event. -/
inductive Event where
  | cmdStart
  | cmdStatus
  | cmdCancel
  | textMessage (q : String)
  | callback (d : CallbackData)
deriving DecidableEq, Repr

/-- The five handlers registered in `main`. -/
inductive HandlerId where
  | hStart
  | hSearch
  | hStatus
  | hSelect
  | hCancel
deriving DecidableEq, Repr

/-- The handler table of the `ConversationHandler` (main.py 429-440):
entry point `/start`; state `SEARCH` handles free text, `/start` and
`/status`; state `SELECT_TORRENT` handles only callback queries; the single
fallback `/cancel` applies in both conversation states.  `none` means the
event is not dispatched to any handler. -/
def dispatch : ConvState → Event → Option HandlerId
  | .SEARCH, .textMessage _ => some .hSearch
  | .SEARCH, .cmdStart => some .hStart
  | .SEARCH, .cmdStatus => some .hStatus
  | .SEARCH, .cmdCancel => some .hCancel
  | .SELECT_TORRENT, .callback _ => some .hSelect
  | .SELECT_TORRENT, .cmdCancel => some .hCancel
  | .DONE, .cmdStart => some .hStart
  | _, _ => none

/-- One inbound event with the collaborator behaviour observed while it was
processed (the provider response for a search, the daemon outcome for a
submission or a status query). -/
structure EventCtx where
  uid : Int
  ev : Event
  provider : ProviderOutcome := .exn
  daemon : SubmitOutcome := .ok
  daemonJobs : Option (List Job) := none

/-- The global mutable state: per-actor conversation state (managed by the
`ConversationHandler`) and the module-level result cache. -/
structure Sys where
  conv : Int → ConvState
  cache : CacheT

/-- Process start: nobody is in a conversation, the cache is empty. -/
def initSys : Sys :=
  { conv := fun _ => .DONE, cache := cacheEmpty }

/-- Payload extraction for the two payload-carrying events (the defaults are
never used under `dispatch`). -/
def textOf : Event → String
  | .textMessage q => q
  | _ => ""

/-- Callback payload of an event. -/
def callbackOf : Event → CallbackData
  | .callback d => d
  | _ => .cancel

/-- Run one registered handler on the shared cache. -/
def runHandler (allowed : List Int) (c : EventCtx) (h : HandlerId)
    (cache : CacheT) : HandlerOut :=
  match h with
  | .hStart => start allowed c.uid cache
  | .hSearch => search_torrent allowed c.uid (textOf c.ev) c.provider cache
  | .hStatus => status allowed c.uid c.daemonJobs cache
  | .hSelect => select_torrent c.uid (callbackOf c.ev) c.daemon cache
  | .hCancel => cancel c.uid cache

/-- Process one inbound event: dispatch on the sender's conversation state,
run the handler, record its returned state for the sender.  An undispatched
event changes nothing. -/
def step (allowed : List Int) (s : Sys) (c : EventCtx) : Sys × List Msg :=
  match dispatch (s.conv c.uid) c.ev with
  | none => (s, [])
  | some h =>
    let out := runHandler allowed c h s.cache
    ({ conv := fun u => if u = c.uid then out.ret else s.conv u
       cache := out.cache }, out.msgs)

/-- Process a sequence of events from the initial state. -/
def runTrace (allowed : List Int) (es : List EventCtx) : Sys :=
  es.foldl (fun s c => (step allowed s c).1) initSys

/-! ## Concrete fixtures used by counterexamples and witnesses -/

/-- A formatted candidate with a usable magnet locator. -/
def tA : Torrent := ⟨"g1", "Alpha", 700, 50, 9, "magnet:a", "trk"⟩

/-- A second candidate with a usable magnet locator. -/
def tB : Torrent := ⟨"g2", "Beta", 800, 20, 3, "magnet:b", "trk"⟩

/-- A third candidate with a usable magnet locator. -/
def tC : Torrent := ⟨"g3", "Gamma", 900, 10, 1, "magnet:c", "trk"⟩

/-- A raw provider result carrying a magnet locator. -/
def rawA : RawResult :=
  { guid := some "g1", title := some "Alpha", size := some 700
    seeders := some 50, peers := some 9, magnetUri := some "magnet:a"
    tracker := some "trk" }

/-- A cache holding one entry for actor 7. -/
def cacheOne : CacheT := cacheSet cacheEmpty 7 [tA]

/-- A cache holding a three-candidate entry for actor 7. -/
def cacheThree : CacheT := cacheSet cacheEmpty 7 [tA, tB, tC]

/-- Trace event: actor 1 sends `/start`. -/
def evStart1 : EventCtx := { uid := 1, ev := .cmdStart }

/-- Trace event: actor 1 sends a query and the provider returns one result. -/
def evSearch1 : EventCtx :=
  { uid := 1, ev := .textMessage "q", provider := .resp ⟨200, [rawA]⟩ }

/-- Trace event: actor 1 taps the Cancel button. -/
def evCancel1 : EventCtx := { uid := 1, ev := .callback .cancel }

/-- Trace event: the non-allow-listed actor 2 sends `/start`. -/
def evStartBy2 : EventCtx := { uid := 2, ev := .cmdStart }

/-- Eleven daemon jobs, to exercise the status overflow caveat. -/
def jobsEleven : List Job :=
  (List.range 11).map (fun n => ⟨"job", "downloading", (n : Int), 5, 1⟩)

/-- Trace event: actor 1 sends `/status` with eleven torrents in the daemon. -/
def evStatus1 : EventCtx :=
  { uid := 1, ev := .cmdStatus, daemonJobs := some jobsEleven }

/-! ## Lemmas about the stable descending sort -/

theorem mem_insertDesc (k : α → Int) (a : α) (l : List α) (x : α) :
    x ∈ insertDesc k a l ↔ x = a ∨ x ∈ l := by
  induction l with
  | nil => simp [insertDesc]
  | cons b bs ih =>
    simp only [insertDesc]
    split
    · simp [List.mem_cons]
    · simp only [List.mem_cons, ih]
      tauto

theorem pairwise_insertDesc (k : α → Int) (a : α) (l : List α)
    (hl : l.Pairwise (fun x y => k y ≤ k x)) :
    (insertDesc k a l).Pairwise (fun x y => k y ≤ k x) := by
  induction l with
  | nil => simp [insertDesc]
  | cons b bs ih =>
    rcases List.pairwise_cons.mp hl with ⟨hb, hbs⟩
    simp only [insertDesc]
    split
    · rename_i hle
      refine List.pairwise_cons.mpr ⟨?_, hl⟩
      intro x hx
      rcases List.mem_cons.mp hx with rfl | hx
      · exact hle
      · exact le_trans (hb x hx) hle
    · rename_i hgt
      push_neg at hgt
      refine List.pairwise_cons.mpr ⟨?_, ih hbs⟩
      intro x hx
      rcases (mem_insertDesc k a bs x).mp hx with rfl | hx
      · exact le_of_lt hgt
      · exact hb x hx

theorem sortDesc_pairwise (k : α → Int) (l : List α) :
    (sortDesc k l).Pairwise (fun x y => k y ≤ k x) := by
  induction l with
  | nil => simp [sortDesc]
  | cons x xs ih => exact pairwise_insertDesc k x _ ih

theorem filter_insertDesc (k : α → Int) (s : Int) (a : α) (l : List α) :
    (insertDesc k a l).filter (fun x => k x == s)
      = if k a = s then a :: l.filter (fun x => k x == s)
        else l.filter (fun x => k x == s) := by
  induction l with
  | nil =>
    by_cases h : k a = s <;> simp [insertDesc, h]
  | cons b bs ih =>
    simp only [insertDesc]
    split
    · rename_i hle
      by_cases h : k a = s <;> simp [List.filter_cons, h]
    · rename_i hgt
      push_neg at hgt
      by_cases h : k a = s
      · have hb2 : ¬ k b = s := by omega
        simp [List.filter_cons, ih, h, hb2]
      · by_cases hb2 : k b = s <;> simp [List.filter_cons, ih, h, hb2]

theorem sortDesc_filter (k : α → Int) (s : Int) (l : List α) :
    (sortDesc k l).filter (fun x => k x == s)
      = l.filter (fun x => k x == s) := by
  induction l with
  | nil => rfl
  | cons x xs ih =>
    simp only [sortDesc]
    rw [filter_insertDesc]
    by_cases h : k x = s <;> simp [List.filter_cons, h, ih]

theorem length_insertDesc (k : α → Int) (a : α) (l : List α) :
    (insertDesc k a l).length = l.length + 1 := by
  induction l with
  | nil => rfl
  | cons b bs ih =>
    simp only [insertDesc]
    split <;> simp [ih]

theorem sortDesc_length (k : α → Int) (l : List α) :
    (sortDesc k l).length = l.length := by
  induction l with
  | nil => rfl
  | cons x xs ih => simp [sortDesc, length_insertDesc, ih]

/-- C4: every ResultSet produced by the search adapter is sorted by seed
count in descending order, candidates with equal seed counts keep the
provider's original relative order (for every seed value `s`, the entries
with that seed count are an initial run of the correspondingly filtered raw
list, formatted), and the ResultSet holds at most 10 entries. -/
theorem C4_resultset_sorted_capped_stable (o : ProviderOutcome) :
    (search_jackett o).length ≤ 10
    ∧ (search_jackett o).Pairwise (fun a b => b.seeds ≤ a.seeds)
    ∧ ∀ s : Int, ∃ rest,
        (search_jackett o).filter (fun t => t.seeds == s) ++ rest
          = ((rawResultsOf o).filter (fun x => seedersOf x == s)).map
              formatResult := by
  match o with
  | .exn =>
    exact ⟨by simp [search_jackett], by simp [search_jackett],
      fun s => ⟨[], by simp [search_jackett, rawResultsOf]⟩⟩
  | .resp r =>
    by_cases h : r.status_code = 200
    · have hred : search_jackett (.resp r)
          = ((sortDesc seedersOf r.results).take 10).map formatResult := by
        simp [search_jackett, h]
      have hraw : rawResultsOf (.resp r) = r.results := by
        simp [rawResultsOf, h]
      rw [hred, hraw]
      refine ⟨?_, ?_, ?_⟩
      · simp only [List.length_map, List.length_take]
        exact min_le_left _ _
      · rw [List.pairwise_map]
        exact (sortDesc_pairwise seedersOf r.results).sublist
          (List.take_sublist _ _)
      · intro s
        refine ⟨(((sortDesc seedersOf r.results).drop 10).filter
            (fun x => seedersOf x == s)).map formatResult, ?_⟩
        rw [List.filter_map]
        have hcomp : ((fun t : Torrent => t.seeds == s) ∘ formatResult)
            = (fun x => seedersOf x == s) := rfl
        rw [hcomp, ← List.map_append, ← List.filter_append,
          List.take_append_drop, sortDesc_filter]
    · have hred : search_jackett (.resp r) = [] := by
        simp [search_jackett, h]
      have hraw : rawResultsOf (.resp r) = [] := by
        simp [rawResultsOf, h]
      rw [hred, hraw]
      exact ⟨by simp, by simp, fun s => ⟨[], by simp⟩⟩

/-- C8: for every retained raw result the retrieval locator prefers the
magnet field, falls back to the link field when the magnet field is absent or
empty, and is empty when both are absent; missing title and tracker default
to "Unknown", missing numeric fields to 0; and no candidate is dropped by
locator resolution (the adapter keeps `min |raw| 10` entries regardless of
locators). -/
theorem C8_locator_resolution_and_defaults (r : RawResult) (m l : String)
    (rs : List RawResult) :
    resolveMagnet { r with magnetUri := some m, link := some l }
        = (if m = "" then l else m)
    ∧ resolveMagnet { r with magnetUri := some m, link := none } = m
    ∧ resolveMagnet { r with magnetUri := none, link := some l } = l
    ∧ resolveMagnet { r with magnetUri := none, link := none } = ""
    ∧ (formatResult r).title = r.title.getD "Unknown"
    ∧ (formatResult r).size = r.size.getD 0
    ∧ (formatResult r).seeds = r.seeders.getD 0
    ∧ (formatResult r).peers = r.peers.getD 0
    ∧ (formatResult r).tracker = r.tracker.getD "Unknown"
    ∧ (formatResult r).magnet = resolveMagnet r
    ∧ (search_jackett (.resp ⟨200, rs⟩)).length = min 10 rs.length := by
  refine ⟨?_, ?_, ?_, ?_, rfl, rfl, rfl, rfl, rfl, rfl, ?_⟩
  · by_cases h : m = "" <;> simp [resolveMagnet, h]
  · by_cases h : m = "" <;> simp [resolveMagnet, h]
  · simp [resolveMagnet]
  · simp [resolveMagnet]
  · simp [search_jackett, List.length_map, List.length_take, sortDesc_length]

example : search_jackett .exn = [] := rfl

example :
    (search_jackett (.resp ⟨200,
      [{ title := some "a", seeders := some 5 },
       { title := some "b", seeders := some 50 },
       { title := some "c", seeders := some 10 }]⟩)).map Torrent.title
    = ["b", "c", "a"] := by decide

example :
    (search_jackett (.resp ⟨200,
      [{ title := some "a", seeders := some 7 },
       { title := some "b", seeders := some 7 },
       { title := some "c", seeders := some 9 }]⟩)).map Torrent.title
    = ["c", "a", "b"] := by decide

/-- C1 counterexample: actor 7 holds a cached candidate with a non-empty
locator, selects index 0, and the daemon submission fails with a
`TransmissionError`.  The claim says the CacheEntry is then absent; in the
code the `pop` sits after `add_torrent`, so on failure the entry survives. -/
theorem C1_counterexample :
    (select_torrent 7 (.intData 0) (.transmissionError "daemon down")
        cacheOne).cache 7 ≠ none := by
  decide

/-- C1 amended: after the Download Submitter returns the state is Idle in
both outcomes, but the CacheEntry is removed only on success; on a daemon
error the whole cache (hence the entry) is left untouched. -/
theorem C1_cleanup_only_on_success (uid : Int) (cache : CacheT)
    (results : List Torrent) (i : Int) (t : Torrent) (e : String)
    (hc : cache uid = some results)
    (hne : results.isEmpty = false)
    (hi : i < (results.length : Int))
    (ht : pyIndex results i = some t)
    (hm : ¬ t.magnet = "") :
    ((select_torrent uid (.intData i) .ok cache).cache uid = none
      ∧ (select_torrent uid (.intData i) .ok cache).ret = .SEARCH)
    ∧ ((select_torrent uid (.intData i) (.transmissionError e) cache).cache
          = cache
      ∧ (select_torrent uid (.intData i) (.transmissionError e) cache).ret
          = .SEARCH) := by
  have hile : ¬ ((results.length : Int) ≤ i) := not_le.mpr hi
  simp only [select_torrent, hc, Option.getD_some, hne, hile, decide_False,
    Bool.false_or, if_false, ht, hm, if_neg, decide_eq_true_eq]
  simp [hm, cachePop]

/-- C1 witness. -/
theorem C1_witness :
    ((select_torrent 7 (.intData 0) .ok cacheOne).cache 7 = none
      ∧ (select_torrent 7 (.intData 0) .ok cacheOne).ret = .SEARCH)
    ∧ ((select_torrent 7 (.intData 0) (.transmissionError "x")
          cacheOne).cache = cacheOne
      ∧ (select_torrent 7 (.intData 0) (.transmissionError "x")
          cacheOne).ret = .SEARCH) :=
  C1_cleanup_only_on_success 7 cacheOne [tA] 0 tA "x" rfl rfl (by decide)
    rfl (by decide)

/-- C3 counterexample: with a three-candidate cache, the callback index `-1`
is outside `0 ≤ i < 3`, yet the code's bounds check is only
`torrent_index >= len(...)`, so Python indexing wraps around: the last
candidate is selected and the daemon is contacted with its locator instead of
an invalid-selection rejection. -/
theorem C3_counterexample :
    (select_torrent 7 (.intData (-1)) .ok cacheThree).daemonAdd
        = some "magnet:c"
    ∧ Msg.invalidSelection ∉
        (select_torrent 7 (.intData (-1)) .ok cacheThree).msgs := by
  decide

/-- C3 amended: a selection index `i` against a cached ResultSet of length
`n` is rejected with the invalid-selection message (state Idle, daemon not
contacted, cache untouched) when the entry is missing or when `i ≥ n`; for
`i < -n` the `IndexError` lands in the generic handler (state Idle, daemon
not contacted); but for `-n ≤ i < n` the candidate Python indexing resolves
(index `n + i` when `i < 0`) is accepted and, when its locator is non-empty,
the daemon is contacted with exactly that locator. -/
theorem C3_index_validation :
    (∀ (uid i : Int) (d : SubmitOutcome) (cache : CacheT),
      cache uid = none →
      select_torrent uid (.intData i) d cache
        = ⟨.SEARCH, cache, [.invalidSelection], none⟩)
    ∧ (∀ (uid i : Int) (d : SubmitOutcome) (cache : CacheT)
        (results : List Torrent),
      cache uid = some results → (results.length : Int) ≤ i →
      select_torrent uid (.intData i) d cache
        = ⟨.SEARCH, cache, [.invalidSelection], none⟩)
    ∧ (∀ (uid i : Int) (d : SubmitOutcome) (cache : CacheT)
        (results : List Torrent),
      cache uid = some results → results.isEmpty = false →
      i + (results.length : Int) < 0 →
      select_torrent uid (.intData i) d cache
        = ⟨.SEARCH, cache, [.selectionError "list index out of range"],
            none⟩)
    ∧ (∀ (uid i : Int) (d : SubmitOutcome) (cache : CacheT)
        (results : List Torrent) (t : Torrent),
      cache uid = some results → results.isEmpty = false →
      i < (results.length : Int) → pyIndex results i = some t →
      ¬ t.magnet = "" →
      (select_torrent uid (.intData i) d cache).daemonAdd = some t.magnet) := by
  refine ⟨?_, ?_, ?_, ?_⟩
  · intro uid i d cache hc
    simp [select_torrent, hc]
  · intro uid i d cache results hc hge
    simp only [select_torrent, hc, Option.getD_some]
    rw [if_pos]
    simp [hge]
  · intro uid i d cache results hc hne hlow
    have hile : ¬ ((results.length : Int) ≤ i) := by omega
    have hpy : pyIndex results i = none := by
      have h1 : ¬ (0 ≤ i) := by omega
      have h2 : ¬ (0 ≤ i + (results.length : Int)) := by omega
      simp [pyIndex, h1, h2]
    simp only [select_torrent, hc, Option.getD_some, hne, hile, decide_False,
      Bool.false_or, if_false, hpy]
    simp
  · intro uid i d cache results t hc hne hi hpy hm
    have hile : ¬ ((results.length : Int) ≤ i) := not_le.mpr hi
    simp only [select_torrent, hc, Option.getD_some, hne, hile, decide_False,
      Bool.false_or, if_false, hpy]
    cases d <;> simp [hm]

/-- C3 witness. -/
theorem C3_witness :
    (select_torrent 7 (.intData 1) .ok cacheEmpty
        = ⟨.SEARCH, cacheEmpty, [.invalidSelection], none⟩)
    ∧ (select_torrent 7 (.intData 5) .ok cacheThree
        = ⟨.SEARCH, cacheThree, [.invalidSelection], none⟩)
    ∧ (select_torrent 7 (.intData (-4)) .ok cacheThree
        = ⟨.SEARCH, cacheThree,
            [.selectionError "list index out of range"], none⟩)
    ∧ ((select_torrent 7 (.intData 2) .ok cacheThree).daemonAdd
        = some tC.magnet) :=
  ⟨C3_index_validation.1 7 1 .ok cacheEmpty rfl,
   C3_index_validation.2.1 7 5 .ok cacheThree [tA, tB, tC] rfl (by decide),
   C3_index_validation.2.2.1 7 (-4) .ok cacheThree [tA, tB, tC] rfl rfl
     (by decide),
   C3_index_validation.2.2.2 7 2 .ok cacheThree [tA, tB, tC] tC rfl rfl
     (by decide) rfl (by decide)⟩

/-- C5 counterexample: actor 7 is awaiting selection with a cached entry and
taps the Cancel button; the claim says the cancel callback removes the
CacheEntry, but the `"cancel"` branch of `select_torrent` only edits the
message and returns to `SEARCH`, so the entry survives. -/
theorem C5_counterexample :
    (select_torrent 7 .cancel .ok cacheOne).cache 7 ≠ none := by
  decide

/-- C5 amended: the explicit `/cancel` command removes the actor's
CacheEntry, emits the cancellation message and ends the conversation; the
cancel callback while awaiting selection emits a cancellation message and
transitions to Idle but leaves the cache completely untouched. -/
theorem C5_cancel_paths (uid : Int) (d : SubmitOutcome) (cache : CacheT) :
    (cancel uid cache
        = ⟨.DONE, cachePop cache uid, [.operationCancelled], none⟩)
    ∧ ((cancel uid cache).cache uid = none)
    ∧ (select_torrent uid .cancel d cache
        = ⟨.SEARCH, cache, [.searchCancelled], none⟩) := by
  refine ⟨rfl, ?_, rfl⟩
  simp [cancel, cachePop]

/-- C10: a callback payload that is neither `"cancel"` nor parseable as an
integer makes `int()` raise `ValueError`; the generic handler catches it,
shows the truncated detail, returns to the query-accepting state, contacts
no daemon, and leaves the cache unchanged. -/
theorem C10_malformed_payload_safe (uid : Int) (e : String)
    (d : SubmitOutcome) (cache : CacheT) :
    select_torrent uid (.malformed e) d cache
      = ⟨.SEARCH, cache, [.selectionError (e.take 200)], none⟩ :=
  rfl

/-! ## Frame lemmas about the handlers and the global step -/

theorem select_torrent_ret (uid : Int) (d : CallbackData) (dm : SubmitOutcome)
    (cache : CacheT) : (select_torrent uid d dm cache).ret = .SEARCH := by
  match d with
  | .cancel => rfl
  | .malformed e => rfl
  | .intData i =>
    simp only [select_torrent]
    split
    · rfl
    · cases hpy : pyIndex ((cache uid).getD []) i with
      | none => simp [hpy]
      | some t =>
        simp only [hpy]
        split
        · rfl
        · cases dm <;> rfl

theorem select_torrent_cache_other (uid : Int) (d : CallbackData)
    (dm : SubmitOutcome) (cache : CacheT) (u : Int) (hu : u ≠ uid) :
    (select_torrent uid d dm cache).cache u = cache u := by
  match d with
  | .cancel => rfl
  | .malformed e => rfl
  | .intData i =>
    simp only [select_torrent]
    split
    · rfl
    · cases hpy : pyIndex ((cache uid).getD []) i with
      | none => simp [hpy]
      | some t =>
        simp only [hpy]
        split
        · rfl
        · cases dm with
          | ok => simp [cachePop, hu]
          | transmissionError e => rfl

theorem select_torrent_cache_self (uid : Int) (d : CallbackData)
    (dm : SubmitOutcome) (cache : CacheT) :
    (select_torrent uid d dm cache).cache uid = cache uid
    ∨ (select_torrent uid d dm cache).cache uid = none := by
  match d with
  | .cancel => exact Or.inl rfl
  | .malformed e => exact Or.inl rfl
  | .intData i =>
    simp only [select_torrent]
    split
    · exact Or.inl rfl
    · cases hpy : pyIndex ((cache uid).getD []) i with
      | none => simp [hpy]
      | some t =>
        simp only [hpy]
        split
        · exact Or.inl rfl
        · cases dm with
          | ok => right; simp [cachePop]
          | transmissionError e => exact Or.inl rfl

theorem status_cache_eq (allowed : List Int) (uid : Int)
    (dj : Option (List Job)) (cache : CacheT) :
    (status allowed uid dj cache).cache = cache := by
  simp only [status]
  split
  · cases dj with
    | none => rfl
    | some jobs => by_cases hj : jobs.isEmpty <;> simp [hj]
  · rfl

theorem status_ret_auth (allowed : List Int) (uid : Int)
    (dj : Option (List Job)) (cache : CacheT)
    (h : check_user allowed uid = true) :
    (status allowed uid dj cache).ret = .SEARCH := by
  simp only [status, h, if_true]
  cases dj with
  | none => rfl
  | some jobs => by_cases hj : jobs.isEmpty <;> simp [hj]

theorem runHandler_cache_other (allowed : List Int) (c : EventCtx)
    (h : HandlerId) (cache : CacheT) (u : Int) (hu : u ≠ c.uid) :
    (runHandler allowed c h cache).cache u = cache u := by
  cases h with
  | hStart =>
    simp only [runHandler, start]
    split <;> rfl
  | hSearch =>
    simp only [runHandler, search_torrent]
    split
    · split
      · rfl
      · simp [cacheSet, hu]
    · rfl
  | hStatus => rw [runHandler, status_cache_eq]
  | hSelect => exact select_torrent_cache_other c.uid _ _ cache u hu
  | hCancel => simp [runHandler, cancel, cachePop, hu]

theorem runHandler_select_cached (allowed : List Int) (c : EventCtx)
    (h : HandlerId) (cache : CacheT)
    (hret : (runHandler allowed c h cache).ret = .SELECT_TORRENT) :
    ((runHandler allowed c h cache).cache c.uid).isSome = true := by
  cases h with
  | hStart =>
    revert hret
    simp only [runHandler, start]
    split <;> simp
  | hSearch =>
    revert hret
    simp only [runHandler, search_torrent]
    split
    · split
      · simp
      · intro _
        simp [cacheSet]
    · simp
  | hStatus =>
    revert hret
    simp only [runHandler, status]
    split
    · cases c.daemonJobs with
      | none => simp
      | some jobs => by_cases hj : jobs.isEmpty <;> simp [hj]
    · simp
  | hSelect =>
    rw [runHandler, select_torrent_ret] at hret
    exact absurd hret (by simp)
  | hCancel =>
    revert hret
    simp [runHandler, cancel]

/-! ## Claims about the event-processing invariants -/

/-- C2 counterexample: the allowed actor 1 starts, searches successfully
(entering `AwaitingSelection` with a CacheEntry), then taps Cancel.  After
this third event the actor is back in `SEARCH` (Idle) yet the cache entry is
still present, refuting the claimed iff between cache presence and
`AwaitingSelection`. -/
theorem C2_counterexample :
    (runTrace [1] [evStart1, evSearch1, evCancel1]).conv 1 = .SEARCH
    ∧ ((runTrace [1] [evStart1, evSearch1, evCancel1]).cache 1).isSome
        = true := by
  decide

/-- C2 amended: only one direction of the claimed iff is an invariant of the
event loop: after any single event, an actor in `AwaitingSelection`
(`SELECT_TORRENT`) always has a cache entry.  The converse fails (see the
counterexample): the cancel-callback, empty-locator and submit-error paths
leave an Idle actor with a dangling entry. -/
theorem C2_awaiting_implies_cached (allowed : List Int) (s : Sys)
    (c : EventCtx)
    (hinv : ∀ u, s.conv u = .SELECT_TORRENT → (s.cache u).isSome = true) :
    ∀ u, (step allowed s c).1.conv u = .SELECT_TORRENT →
      ((step allowed s c).1.cache u).isSome = true := by
  intro u
  simp only [step]
  cases hd : dispatch (s.conv c.uid) c.ev with
  | none => simpa using hinv u
  | some h =>
    simp only [hd]
    intro h2
    by_cases hu : u = c.uid
    · subst hu
      simp only [if_pos rfl] at h2
      exact runHandler_select_cached allowed c h s.cache h2
    · simp only [if_neg hu] at h2
      rw [runHandler_cache_other allowed c h s.cache u hu]
      exact hinv u h2

/-- C2 witness. -/
theorem C2_witness :
    (∀ u, initSys.conv u = .SELECT_TORRENT
      → (initSys.cache u).isSome = true)
    ∧ ∀ u, (step [1] initSys evStart1).1.conv u = .SELECT_TORRENT →
        ((step [1] initSys evStart1).1.cache u).isSome = true :=
  ⟨(fun _ h => nomatch h),
   C2_awaiting_implies_cached [1] initSys evStart1 (fun _ h => nomatch h)⟩

/-- C6 counterexample: actor 2 is not on the allow-list `[1]`, yet the
`/cancel` entry point replies with the cancellation message, not with the
unauthorized rejection — `cancel` (like `select_torrent`) never calls
`check_user`. -/
theorem C6_counterexample :
    check_user [1] 2 = false
    ∧ (cancel 2 cacheEmpty).msgs = [.operationCancelled]
    ∧ Msg.unauthorized ∉ (cancel 2 cacheEmpty).msgs := by
  decide

/-- C6 amended: the `start`, free-text search and `status` entry points
reply Unauthorized and mutate nothing for an actor failing `check_user`;
the selection callback and `cancel` handlers perform no authorization check;
nevertheless no CacheEntry is ever created for an unauthorized actor, since
the only cache-writing path is the guarded search handler: an unauthorized
actor with no cache entry still has none after any event is processed. -/
theorem C6_unauthorized_no_entry :
    (∀ (allowed : List Int) (uid : Int) (cache : CacheT),
      check_user allowed uid = false →
      start allowed uid cache = ⟨.DONE, cache, [.unauthorized], none⟩)
    ∧ (∀ (allowed : List Int) (uid : Int) (q : String) (o : ProviderOutcome)
        (cache : CacheT),
      check_user allowed uid = false →
      search_torrent allowed uid q o cache
        = ⟨.DONE, cache, [.unauthorized], none⟩)
    ∧ (∀ (allowed : List Int) (uid : Int) (dj : Option (List Job))
        (cache : CacheT),
      check_user allowed uid = false →
      status allowed uid dj cache = ⟨.DONE, cache, [.unauthorized], none⟩)
    ∧ (∀ (allowed : List Int) (s : Sys) (c : EventCtx) (uid : Int),
      check_user allowed uid = false → s.cache uid = none →
      (step allowed s c).1.cache uid = none) := by
  refine ⟨?_, ?_, ?_, ?_⟩
  · intro allowed uid cache hf
    simp [start, hf]
  · intro allowed uid q o cache hf
    simp [search_torrent, hf]
  · intro allowed uid dj cache hf
    simp [status, hf]
  · intro allowed s c uid hf hn
    simp only [step]
    cases hd : dispatch (s.conv c.uid) c.ev with
    | none => simpa using hn
    | some h =>
      simp only [hd]
      by_cases hu : uid = c.uid
      · subst hu
        cases h with
        | hStart =>
          simp only [runHandler, start]
          split <;> simpa using hn
        | hSearch =>
          simp only [runHandler, search_torrent, hf]
          simpa using hn
        | hStatus => rw [runHandler, status_cache_eq]; exact hn
        | hSelect =>
          rcases select_torrent_cache_self c.uid (callbackOf c.ev) c.daemon
              s.cache with h1 | h1
          · rw [runHandler, h1]; exact hn
          · rw [runHandler, h1]
        | hCancel => simp [runHandler, cancel, cachePop]
      · rw [runHandler_cache_other allowed c h s.cache uid hu]
        exact hn

/-- C6 witness. -/
theorem C6_witness :
    start [1] 2 cacheEmpty = ⟨.DONE, cacheEmpty, [.unauthorized], none⟩
    ∧ search_torrent [1] 2 "q" .exn cacheEmpty
        = ⟨.DONE, cacheEmpty, [.unauthorized], none⟩
    ∧ status [1] 2 none cacheEmpty
        = ⟨.DONE, cacheEmpty, [.unauthorized], none⟩
    ∧ (step [1] initSys evStartBy2).1.cache 2 = none :=
  ⟨C6_unauthorized_no_entry.1 [1] 2 cacheEmpty rfl,
   C6_unauthorized_no_entry.2.1 [1] 2 "q" .exn cacheEmpty rfl,
   C6_unauthorized_no_entry.2.2.1 [1] 2 none cacheEmpty rfl,
   C6_unauthorized_no_entry.2.2.2 [1] initSys evStartBy2 2 rfl rfl⟩

/-- C7: a provider exception or a non-200 status makes `search_jackett`
return the empty ResultSet (exceptions are caught inside the adapter, never
propagated — the adapter is a total function of the provider outcome); the
actor then sees the no-results message, stays Idle, and no cache entry is
created. -/
theorem C7_provider_failure_soft :
    (search_jackett .exn = [])
    ∧ (∀ r : HttpResponse, r.status_code ≠ 200 →
        search_jackett (.resp r) = [])
    ∧ (∀ (allowed : List Int) (uid : Int) (q : String) (o : ProviderOutcome)
        (cache : CacheT),
      check_user allowed uid = true → search_jackett o = [] →
      search_torrent allowed uid q o cache
        = ⟨.SEARCH, cache, [.searching q, .noResults], none⟩) := by
  refine ⟨rfl, ?_, ?_⟩
  · intro r h
    simp [search_jackett, h]
  · intro allowed uid q o cache hcu hres
    simp [search_torrent, hcu, hres]

/-- C7 witness. -/
theorem C7_witness :
    (search_jackett .exn = [])
    ∧ search_jackett (.resp ⟨500, [rawA]⟩) = []
    ∧ search_torrent [1] 1 "q" .exn cacheEmpty
        = ⟨.SEARCH, cacheEmpty, [.searching "q", .noResults], none⟩ :=
  ⟨C7_provider_failure_soft.1,
   C7_provider_failure_soft.2.1 ⟨500, [rawA]⟩ (by decide),
   C7_provider_failure_soft.2.2 [1] 1 "q" .exn cacheEmpty rfl rfl⟩

/-- C9 counterexample: the handler table registers `/status` only in the
`SEARCH` state; while `AwaitingSelection` (`SELECT_TORRENT`) the status
command is dispatched to no handler at all, refuting "in every conversation
state a status command is handled". -/
theorem C9_counterexample :
    dispatch .SELECT_TORRENT .cmdStatus = none := by
  decide

/-- C9 amended: the status command is handled only in the Idle (`SEARCH`)
state; where handled it is read-only — it changes neither the cache nor any
actor's conversation state, never submits a job — and it renders the top 10
jobs with a remaining-count caveat exactly when more than 10 exist. -/
theorem C9_status_readonly_idle_only :
    (dispatch .SEARCH .cmdStatus = some .hStatus)
    ∧ (dispatch .SELECT_TORRENT .cmdStatus = none)
    ∧ (∀ (allowed : List Int) (uid : Int) (dj : Option (List Job))
        (cache : CacheT),
      (status allowed uid dj cache).cache = cache
      ∧ (status allowed uid dj cache).daemonAdd = none)
    ∧ (∀ (allowed : List Int) (uid : Int) (jobs : List Job)
        (cache : CacheT),
      check_user allowed uid = true → jobs.isEmpty = false →
      status allowed uid (some jobs) cache
        = ⟨.SEARCH, cache,
            [.statusSummary (jobs.take 10)
              (if 10 < jobs.length then some (jobs.length - 10) else none)],
            none⟩)
    ∧ (∀ (allowed : List Int) (s : Sys) (c : EventCtx),
      c.ev = .cmdStatus → check_user allowed c.uid = true →
      (step allowed s c).1.conv = s.conv
      ∧ ∀ u, (step allowed s c).1.cache u = s.cache u) := by
  refine ⟨rfl, rfl, ?_, ?_, ?_⟩
  · intro allowed uid dj cache
    refine ⟨status_cache_eq allowed uid dj cache, ?_⟩
    simp only [status]
    split
    · cases dj with
      | none => rfl
      | some jobs => by_cases hj : jobs.isEmpty <;> simp [hj]
    · rfl
  · intro allowed uid jobs cache hcu hne
    simp [status, hcu, hne]
  · intro allowed s c hev hcu
    cases hcv : s.conv c.uid with
    | SEARCH =>
      have hd : dispatch (s.conv c.uid) c.ev = some .hStatus := by
        rw [hcv, hev]
        rfl
      constructor
      · funext u
        simp only [step, hd]
        by_cases hu : u = c.uid
        · subst hu
          have hr : (runHandler allowed c .hStatus s.cache).ret = .SEARCH :=
            status_ret_auth allowed c.uid c.daemonJobs s.cache hcu
          simp [hr, hcv]
        · simp [hu]
      · intro u
        simp only [step, hd]
        rw [runHandler, status_cache_eq]
    | SELECT_TORRENT =>
      have hd : dispatch (s.conv c.uid) c.ev = none := by
        rw [hcv, hev]
        rfl
      simp [step, hd]
    | DONE =>
      have hd : dispatch (s.conv c.uid) c.ev = none := by
        rw [hcv, hev]
        rfl
      simp [step, hd]

/-- C9 witness. -/
theorem C9_witness :
    (status [1] 1 (some jobsEleven) cacheEmpty
      = ⟨.SEARCH, cacheEmpty,
          [.statusSummary (jobsEleven.take 10)
            (if 10 < jobsEleven.length then some (jobsEleven.length - 10)
             else none)],
          none⟩)
    ∧ ((step [1] initSys evStatus1).1.conv = initSys.conv
      ∧ ∀ u, (step [1] initSys evStatus1).1.cache u = initSys.cache u) :=
  ⟨C9_status_readonly_idle_only.2.2.2.1 [1] 1 jobsEleven cacheEmpty rfl
     (by decide),
   C9_status_readonly_idle_only.2.2.2.2 [1] initSys evStatus1 rfl rfl⟩
